import Mathlib

/-!
Shallow embedding of `src/dynamic_graph/sot/dynamics/humanoid_robot.py`
(class `AbstractHumanoidRobot` and its concrete subclass `HumanoidRobot`).

External collaborators (the kxml `Parser`, the jrl-dynamics `DynamicHrp2`
entity, the sot-core signal engine with its `plug` wiring and `recompute`)
are modelled as black boxes, exactly as the design document treats them:
a parsed dynamic model carries its configuration dimension and the values
its signals take when they are recomputed at time 0; wiring a feature input
to a model signal is recorded as a `plugged` link, while a direct `.value`
assignment is recorded as a `const` snapshot.

Numeric values (gains, configuration vectors) are embedded as rationals.
-/

namespace SotDynamics

/-- Configuration / signal vectors (Python tuples or lists of floats). -/
abbrev Vec := List ℚ

/-- An input slot of a feature entity.  `plugged s` records that the slot was
wired with `plug(model.signal s, slot)` (a live dataflow link); `const v`
records a direct `.value = v` assignment (a snapshot). -/
inductive Input where
  | unset : Input
  | plugged (signalName : String) : Input
  | const (v : Vec) : Input
deriving DecidableEq, Repr

/-- A loaded kinematic/dynamic model (the Model Handle).

`props` records the `setProperty` key/value pairs, most recent first.
`opPointCalls` records every `createOpPoint(signalName, referenceName)`
invocation, in order.  `position`, `velocity`, `acceleration` are the values
pushed into the corresponding signals.  `comValue` is the value the `com`
signal yields when recomputed at time 0, and `sigValue s` the value the named
operational-point signal `s` yields; both stand for the black-box dynamics
computation performed by the external library. -/
structure DynModel where
  name : String
  props : List (String × String)
  dimension : Nat
  opPointCalls : List (String × String)
  position : Vec
  velocity : Vec
  acceleration : Vec
  comValue : Vec
  sigValue : String → Vec

/-- `model.setProperty(key, value)`: later assignments shadow earlier ones. -/
def DynModel.setProperty (m : DynModel) (key value : String) : DynModel :=
  { m with props := (key, value) :: m.props }

/-- Reading back a computation flag of the Model Handle. -/
def DynModel.getProperty (m : DynModel) (key : String) : Option String :=
  m.props.lookup key

/-- `model.createOpPoint(signalName, referenceName)`. -/
def DynModel.createOpPoint (m : DynModel) (signalName referenceName : String) :
    DynModel :=
  { m with opPointCalls := m.opPointCalls ++ [(signalName, referenceName)] }

/-- The device that integrates the dynamic equation (`RobotSimu` or the real
robot).  Its `name` is its entity identity; `state` its full-state signal. -/
structure Device where
  name : String
  state : Vec
deriving DecidableEq, Repr

/-- `RobotSimu(name)`: a fresh simulated device. -/
def RobotSimu (name : String) : Device :=
  { name := name, state := [] }

/-- `device.set(v)`: in-place update of the device full-state signal. -/
def Device.set (d : Device) (v : Vec) : Device :=
  { d with state := v }

/-- A `FeatureGeneric` entity: error and jacobian inputs, a selection flag
string, and the name of the desired feature bound through `sdes`. -/
structure FeatureGeneric where
  name : String
  errorIN : Input := .unset
  jacobianIN : Input := .unset
  selec : Option String := none
  sdes : Option String := none
deriving DecidableEq, Repr

/-- A `FeaturePosition` entity, as constructed by
`FeaturePosition(name, positionSignal, jacobianSignal, desiredValue)`:
the two signals are plugged in and the desired value is a snapshot. -/
structure FeaturePosition where
  name : String
  position : Input
  jacobian : Input
  reference : Vec
deriving DecidableEq, Repr

/-- A `Task` entity: member feature names and a scalar control gain. -/
structure Task where
  name : String
  featureNames : List String
  controlGain : ℚ
deriving DecidableEq, Repr

/-- `Task(name)`: a freshly constructed task, before any feature is added and
before its gain is assigned. -/
def Task.create (name : String) : Task :=
  { name := name, featureNames := [], controlGain := 0 }

/-- `task.add(featureName)`. -/
def Task.add (t : Task) (featureName : String) : Task :=
  { t with featureNames := t.featureNames ++ [featureName] }

/-- A raised Python exception, recorded as the exception name the `raise`
statement writes and the message it passes.  (In the source the guard writes
`raise RunTimeError(...)`; `RunTimeError` is an undefined Python name — the
builtin is spelled `RuntimeError` — so at run time the interpreter actually
surfaces a `NameError` before the intended exception is even constructed.) -/
inductive PyError where
  | raised (exceptionName : String) (message : String)
deriving DecidableEq, Repr

/-- `AbstractHumanoidRobot.OperationalPoints`. -/
def OperationalPoints : List String :=
  ["left-wrist", "right-wrist", "left-ankle", "right-ankle"]

/-- `AbstractHumanoidRobot.loadModelFromKxml(self, name, filename)`.
`parse` stands for the external `Parser(name, filename).parse()` call. -/
def loadModelFromKxml (parse : String → String → DynModel)
    (name filename : String) : DynModel :=
  let model := parse name filename
  let model := model.setProperty "ComputeVelocity" "true"
  let model := model.setProperty "ComputeCoM" "true"
  let model := model.setProperty "ComputeAccelerationCoM" "false"
  let model := model.setProperty "ComputeMomentum" "false"
  let model := model.setProperty "ComputeZMP" "true"
  let model := model.setProperty "ComputeBackwardDynamics" "false"
  model

/-- `AbstractHumanoidRobot.loadModelFromJrlDynamics(self, name, modelDir,
modelName, specificitiesPath, jointRankPath)`.  The external `DynamicHrp2`
constructor, its `setFiles` configuration call and its `parse()` call are
black-box parameters.  The Python body ends with a bare `return`, so the
function discards the model it built and returns `None`. -/
def loadModelFromJrlDynamics {JrlModel : Type}
    (mkDynamicHrp2 : String → JrlModel)
    (setFiles : JrlModel → String → String → String → String → JrlModel)
    (jrlParse : JrlModel → JrlModel)
    (name modelDir modelName specificitiesPath jointRankPath : String) :
    Option DynModel :=
  let model := mkDynamicHrp2 name
  let model := setFiles model modelDir modelName specificitiesPath jointRankPath
  let _ := jrlParse model
  none

/-- The orchestrating robot entity (`AbstractHumanoidRobot`).

`features`, `tasks` model the *instance* attributes of the same names:
`none` means the instance attribute was never assigned, so a Python attribute
lookup falls through to the class-level dictionaries (shared by every
instance).  `featuresId` / `tasksId` carry the allocation identity of the
instance dictionaries created by `self.features = dict()` /
`self.tasks = dict()`; the shared class-level dictionaries have the fixed
identities `classFeaturesId` / `classTasksId`.  `members` records the
attributes injected with `setattr(self, memberName, self.features[op])`. -/
structure Robot where
  name : String
  dynamic : Option DynModel := none
  device : Option Device := none
  dimension : Nat := 0
  halfSitting : Vec := []
  featureCom : Option FeatureGeneric := none
  featureComDes : Option FeatureGeneric := none
  comTask : Option Task := none
  features : Option (List (String × FeaturePosition)) := none
  tasks : Option (List (String × Task)) := none
  featuresId : Option Nat := none
  tasksId : Option Nat := none
  members : List (String × FeaturePosition) := []

/-- Allocation identity of the class-level `features = dict()`. -/
def classFeaturesId : Nat := 0

/-- Allocation identity of the class-level `tasks = dict()`. -/
def classTasksId : Nat := 1

/-- Python attribute lookup for `self.features`: the instance dictionary when
one was assigned, otherwise the shared class-level dictionary. -/
def Robot.featuresDictId (r : Robot) : Nat :=
  r.featuresId.getD classFeaturesId

/-- Python attribute lookup for `self.tasks`: the instance dictionary when
one was assigned, otherwise the shared class-level dictionary. -/
def Robot.tasksDictId (r : Robot) : Nat :=
  r.tasksId.getD classTasksId

/-- `AbstractHumanoidRobot.initializeOpPoints(self, model, prefix)`: the body
loops over `OperationalPoints` calling `model.createOpPoint(op, op)`; the
second parameter (the name prefix) is never used. -/
def initializeOpPoints (model : DynModel) (pfx : String) : DynModel :=
  OperationalPoints.foldl (fun acc op => acc.createOpPoint op op) model

/-- Python `str.capitalize()`: first character uppercased, the remaining
characters lowercased. -/
def pyCapitalize : List Char → List Char
  | [] => []
  | c :: cs => c.toUpper :: cs.map Char.toLower

/-- Python `str.split(sep)` for a one-character separator: the list of
chunks between occurrences of the separator. -/
def pySplit (sep : Char) : List Char → List (List Char)
  | [] => [[]]
  | c :: cs =>
    match pySplit sep cs with
    | [] => [[c]]
    | w :: ws => if c = sep then [] :: w :: ws else (c :: w) :: ws

/-- The camelCase member name derived from a hyphen-separated operational
point name: `w = op.split('-'); w[0]` followed by `i.capitalize()` for every
further component (e.g. `"left-wrist"` gives `"leftWrist"`). -/
def memberName (op : String) : String :=
  match pySplit '-' op.toList with
  | [] => ""
  | w :: ws => String.mk (ws.foldl (fun acc i => acc ++ pyCapitalize i) w)

/-- The `FeaturePosition` built for operational point `op` during
`initializeRobot`: position and jacobian signals plugged from the model,
desired value a snapshot of `self.dynamic.signal(op).value`. -/
def opFeature (robotName : String) (dyn : DynModel) (op : String) :
    FeaturePosition :=
  { name := robotName ++ ".feature." ++ op
    position := .plugged op
    jacobian := .plugged ("J" ++ op)
    reference := dyn.sigValue op }

/-- The `Task` built for operational point `op` during `initializeRobot`. -/
def opTask (robotName : String) (op : String) : Task :=
  { (Task.create (robotName ++ ".task." ++ op)).add
      (robotName ++ ".feature." ++ op) with controlGain := 1/5 }

/-- `AbstractHumanoidRobot.initializeRobot(self)`.

`fresh` supplies allocation identities for the two `dict()` calls; the
returned counter hands the next free identity to later allocations, so two
sequential initializations never reuse an identity.  The body mirrors the
source line by line: guard on `self.dynamic`, default `RobotSimu` device,
push half-sitting / zero vectors, create operational points, recompute the
CoM signals (a black-box pull whose result is `comValue`), build the CoM
feature pair and task, then one feature/task pair per operational point plus
the injected camelCase member attributes. -/
def initializeRobot (r : Robot) (fresh : Nat) : Except PyError (Robot × Nat) :=
  match r.dynamic with
  | none =>
      .error (.raised "RunTimeError" "robots models have to be initialized first")
  | some dyn0 =>
      let device0 := match r.device with
        | none => RobotSimu (r.name ++ ".device")
        | some d => d
      let device1 := device0.set r.halfSitting
      let dyn1 := { dyn0 with
        position := r.halfSitting
        velocity := List.replicate r.dimension 0
        acceleration := List.replicate r.dimension 0 }
      let dyn2 := initializeOpPoints dyn1 (r.name ++ ".dynamics")
      let featureCom : FeatureGeneric :=
        { name := r.name ++ ".feature.com"
          errorIN := .plugged "com"
          jacobianIN := .plugged "Jcom"
          selec := some "011"
          sdes := some (r.name ++ ".feature.ref.com") }
      let featureComDes : FeatureGeneric :=
        { name := r.name ++ ".feature.ref.com"
          errorIN := .const dyn2.comValue }
      let comTask :=
        { (Task.create (r.name ++ ".task.com")).add (r.name ++ ".feature.com")
            with controlGain := 1 }
      let featuresList := OperationalPoints.map fun op =>
        (op, opFeature r.name dyn2 op)
      let tasksList := OperationalPoints.map fun op =>
        (op, opTask r.name op)
      let membersList := OperationalPoints.map fun op =>
        (memberName op, opFeature r.name dyn2 op)
      .ok ({ r with
        device := some device1
        dynamic := some dyn2
        featureCom := some featureCom
        featureComDes := some featureComDes
        comTask := some comTask
        features := some featuresList
        tasks := some tasksList
        featuresId := some fresh
        tasksId := some (fresh + 1)
        members := membersList }, fresh + 2)

/-- `HumanoidRobot.__init__(self, name, filename)`: load the model through
the kxml loader, take the model dimension, derive an all-zero half-sitting
vector of that length, then run `initializeRobot`. -/
def HumanoidRobot.construct (parse : String → String → DynModel)
    (name filename : String) (fresh : Nat) : Except PyError (Robot × Nat) :=
  let dyn := loadModelFromKxml parse (name ++ ".dynamics") filename
  let r : Robot :=
    { name := name
      dynamic := some dyn
      dimension := dyn.dimension
      halfSitting := List.replicate dyn.dimension 0 }
  initializeRobot r fresh

end SotDynamics

namespace SotDynamics

/-- C1: for every robot name and every valid kxml descriptor,
`loadModelFromKxml` returns a Model Handle whose computation flags are exactly
the fixed profile: ComputeVelocity true, ComputeCoM true,
ComputeAccelerationCoM false, ComputeMomentum false, ComputeZMP true,
ComputeBackwardDynamics false. -/
theorem claim_C1 (parse : String → String → DynModel) (name filename : String) :
    (loadModelFromKxml parse name filename).getProperty "ComputeVelocity"
        = some "true" ∧
    (loadModelFromKxml parse name filename).getProperty "ComputeCoM"
        = some "true" ∧
    (loadModelFromKxml parse name filename).getProperty "ComputeAccelerationCoM"
        = some "false" ∧
    (loadModelFromKxml parse name filename).getProperty "ComputeMomentum"
        = some "false" ∧
    (loadModelFromKxml parse name filename).getProperty "ComputeZMP"
        = some "true" ∧
    (loadModelFromKxml parse name filename).getProperty "ComputeBackwardDynamics"
        = some "false" := by
  refine ⟨?_, ?_, ?_, ?_, ?_, ?_⟩ <;> rfl

/-- A concrete parsed model used to instantiate the theorems below. -/
def sampleModel : DynModel :=
  { name := "r.dynamics"
    props := []
    dimension := 3
    opPointCalls := []
    position := []
    velocity := []
    acceleration := []
    comValue := [0, 0, 1]
    sigValue := fun _ => [1, 2, 3] }

/-- A concrete robot whose model is loaded and whose half-sitting vector has
the model dimension. -/
def sampleRobot : Robot :=
  { name := "r"
    dynamic := some sampleModel
    dimension := 3
    halfSitting := [0, 0, 0] }

/-- A concrete robot on which no model was ever loaded. -/
def bareRobot : Robot :=
  { name := "r" }

/-- C2 counterexample: on a robot without a model, `initializeRobot` raises
the exception written in the source — exception name `RunTimeError` (itself
an undefined Python name) with message "robots models have to be initialized
first" — which is not a `PreconditionError` carrying the message "models must
be initialized first" as the claim states. -/
theorem claim_C2_counterexample :
    initializeRobot bareRobot 2 =
      .error (.raised "RunTimeError" "robots models have to be initialized first") ∧
    PyError.raised "RunTimeError" "robots models have to be initialized first" ≠
      PyError.raised "PreconditionError" "models must be initialized first" := by
  exact ⟨rfl, by decide⟩

/-- C2 (amended): for every robot on which `initializeRobot` is invoked while
no dynamic model is loaded, the call fails — the source raises with exception
name `RunTimeError` (an undefined Python name, so the interpreter actually
surfaces a `NameError`) and intended message "robots models have to be
initialized first" — and no initialization step is performed: the call
returns an error and produces no updated robot state. -/
theorem claim_C2 (r : Robot) (fresh : Nat) (h : r.dynamic = none) :
    initializeRobot r fresh =
      .error (.raised "RunTimeError" "robots models have to be initialized first") := by
  unfold initializeRobot
  rw [h]

/-- Witness for C2 at a concrete input. -/
theorem claim_C2_witness :
    bareRobot.dynamic = none ∧
    initializeRobot bareRobot 7 =
      .error (.raised "RunTimeError" "robots models have to be initialized first") :=
  ⟨rfl, claim_C2 bareRobot 7 rfl⟩

/-- `initializeOpPoints` only records `createOpPoint` calls: position kept. -/
@[simp] theorem initializeOpPoints_position (m : DynModel) (p : String) :
    (initializeOpPoints m p).position = m.position := rfl

/-- `initializeOpPoints` only records `createOpPoint` calls: velocity kept. -/
@[simp] theorem initializeOpPoints_velocity (m : DynModel) (p : String) :
    (initializeOpPoints m p).velocity = m.velocity := rfl

/-- `initializeOpPoints` keeps the acceleration signal. -/
@[simp] theorem initializeOpPoints_acceleration (m : DynModel) (p : String) :
    (initializeOpPoints m p).acceleration = m.acceleration := rfl

/-- `initializeOpPoints` keeps the recomputed CoM value. -/
@[simp] theorem initializeOpPoints_comValue (m : DynModel) (p : String) :
    (initializeOpPoints m p).comValue = m.comValue := rfl

/-- `initializeOpPoints` keeps the recomputed operational-point values. -/
@[simp] theorem initializeOpPoints_sigValue (m : DynModel) (p : String) :
    (initializeOpPoints m p).sigValue = m.sigValue := rfl

/-- C3: for every robot whose half-sitting vector has the model dimension
(the documented Robot invariant, established by `HumanoidRobot.__init__`),
after initialization `len(halfSitting) == dimension == len(position.value) ==
len(velocity.value) == len(acceleration.value)`, velocity and acceleration
are all-zero, and the position vector equals `halfSitting`. -/
theorem claim_C3 (r : Robot) (fresh : Nat) (m : DynModel)
    (hdyn : r.dynamic = some m) (hdim : r.halfSitting.length = r.dimension) :
    ∃ r' fresh' m', initializeRobot r fresh = .ok (r', fresh') ∧
      r'.dynamic = some m' ∧
      r'.halfSitting = r.halfSitting ∧
      r'.dimension = r.dimension ∧
      r'.halfSitting.length = r'.dimension ∧
      m'.position.length = r'.dimension ∧
      m'.velocity.length = r'.dimension ∧
      m'.acceleration.length = r'.dimension ∧
      (∀ x ∈ m'.velocity, x = 0) ∧
      (∀ x ∈ m'.acceleration, x = 0) ∧
      m'.position = r'.halfSitting := by
  unfold initializeRobot
  rw [hdyn]
  refine ⟨_, _, _, rfl, rfl, rfl, rfl, hdim, ?_, ?_, ?_, ?_, ?_, ?_⟩
  · simpa using hdim
  · simp
  · simp
  · intro x hx
    rw [initializeOpPoints_velocity] at hx
    exact List.eq_of_mem_replicate hx
  · intro x hx
    rw [initializeOpPoints_acceleration] at hx
    exact List.eq_of_mem_replicate hx
  · rfl

/-- Witness for C3 at a concrete input. -/
theorem claim_C3_witness :
    sampleRobot.dynamic = some sampleModel ∧
    sampleRobot.halfSitting.length = sampleRobot.dimension ∧
    (∃ r' fresh' m', initializeRobot sampleRobot 2 = .ok (r', fresh') ∧
      r'.dynamic = some m' ∧
      r'.halfSitting = sampleRobot.halfSitting ∧
      r'.dimension = sampleRobot.dimension ∧
      r'.halfSitting.length = r'.dimension ∧
      m'.position.length = r'.dimension ∧
      m'.velocity.length = r'.dimension ∧
      m'.acceleration.length = r'.dimension ∧
      (∀ x ∈ m'.velocity, x = 0) ∧
      (∀ x ∈ m'.acceleration, x = 0) ∧
      m'.position = r'.halfSitting) :=
  ⟨rfl, rfl, claim_C3 sampleRobot 2 sampleModel rfl rfl⟩

/-- Modelled from the spec: the selection flag string of a feature is a
3-bit mask over the axes of the error vector, the i-th character telling
whether axis i participates (character `1`) or is excluded (character `0`).
The decoder itself lives in the external signal engine (sot-core `Flags`),
outside this repository; the design document describes the mask as "a 3-bit
mask for x/y/z" whose first position is the first axis. -/
def selecAxes (mask : String) : List Bool :=
  mask.toList.map (fun c => c == '1')

/-- C4: after initialization the CoM task's control gain is exactly 1.0 and
the CoM feature's selection mask `"011"` excludes exactly one of the three
axes, namely the first (the remaining two participate). -/
theorem claim_C4 (r : Robot) (fresh : Nat) (m : DynModel)
    (hdyn : r.dynamic = some m) :
    ∃ r' fresh' t f, initializeRobot r fresh = .ok (r', fresh') ∧
      r'.comTask = some t ∧ t.controlGain = 1 ∧
      r'.featureCom = some f ∧ f.selec = some "011" ∧
      selecAxes "011" = [false, true, true] ∧
      (selecAxes "011").length = 3 ∧
      (selecAxes "011").count false = 1 ∧
      (selecAxes "011").getD 0 true = false := by
  unfold initializeRobot
  rw [hdyn]
  exact ⟨_, _, _, _, rfl, rfl, rfl, rfl, rfl, by decide, by decide, by decide,
    by decide⟩

/-- Witness for C4 at a concrete input. -/
theorem claim_C4_witness :
    sampleRobot.dynamic = some sampleModel ∧
    (∃ r' fresh' t f, initializeRobot sampleRobot 2 = .ok (r', fresh') ∧
      r'.comTask = some t ∧ t.controlGain = 1 ∧
      r'.featureCom = some f ∧ f.selec = some "011" ∧
      selecAxes "011" = [false, true, true] ∧
      (selecAxes "011").length = 3 ∧
      (selecAxes "011").count false = 1 ∧
      (selecAxes "011").getD 0 true = false) :=
  ⟨rfl, claim_C4 sampleRobot 2 sampleModel rfl⟩

/-- C5: after initialization, every name of the fixed operational-point set
has a feature and a task in the name-keyed mappings, the task's control gain
is 0.2, and the camelCase member attribute derived from the hyphenated name
resolves to the same feature as the mapping entry. -/
theorem claim_C5 (r : Robot) (fresh : Nat) (m : DynModel)
    (hdyn : r.dynamic = some m) :
    ∃ r' fresh' fs ts, initializeRobot r fresh = .ok (r', fresh') ∧
      r'.features = some fs ∧ r'.tasks = some ts ∧
      memberName "left-wrist" = "leftWrist" ∧
      ∀ op ∈ OperationalPoints,
        (fs.lookup op).isSome ∧
        (∃ t, ts.lookup op = some t ∧ t.controlGain = 1/5) ∧
        r'.members.lookup (memberName op) = fs.lookup op := by
  unfold initializeRobot
  rw [hdyn]
  refine ⟨_, _, _, _, rfl, rfl, rfl, rfl, ?_⟩
  intro op hop
  simp only [OperationalPoints, List.mem_cons, List.not_mem_nil, or_false]
    at hop
  rcases hop with rfl | rfl | rfl | rfl <;>
    exact ⟨rfl, ⟨_, rfl, rfl⟩, rfl⟩

/-- Witness for C5 at a concrete input. -/
theorem claim_C5_witness :
    sampleRobot.dynamic = some sampleModel ∧
    (∃ r' fresh' fs ts, initializeRobot sampleRobot 2 = .ok (r', fresh') ∧
      r'.features = some fs ∧ r'.tasks = some ts ∧
      memberName "left-wrist" = "leftWrist" ∧
      ∀ op ∈ OperationalPoints,
        (fs.lookup op).isSome ∧
        (∃ t, ts.lookup op = some t ∧ t.controlGain = 1/5) ∧
        r'.members.lookup (memberName op) = fs.lookup op) :=
  ⟨rfl, claim_C5 sampleRobot 2 sampleModel rfl⟩

/-- C7: after initialization the desired CoM feature's error input holds the
value the CoM signal yielded at initialization time as a `const` snapshot —
while the current CoM feature's error input is a live `plugged` link — and
every operational-point feature's desired value equals the point's position
value at initialization time. -/
theorem claim_C7 (r : Robot) (fresh : Nat) (m : DynModel)
    (hdyn : r.dynamic = some m) :
    ∃ r' fresh' m' fd f fs, initializeRobot r fresh = .ok (r', fresh') ∧
      r'.dynamic = some m' ∧
      r'.featureComDes = some fd ∧
      fd.errorIN = Input.const m'.comValue ∧
      r'.featureCom = some f ∧
      f.errorIN = Input.plugged "com" ∧
      r'.features = some fs ∧
      ∀ op ∈ OperationalPoints, ∃ fp, fs.lookup op = some fp ∧
        fp.reference = m'.sigValue op := by
  unfold initializeRobot
  rw [hdyn]
  refine ⟨_, _, _, _, _, _, rfl, rfl, rfl, rfl, rfl, rfl, rfl, ?_⟩
  intro op hop
  simp only [OperationalPoints, List.mem_cons, List.not_mem_nil, or_false]
    at hop
  rcases hop with rfl | rfl | rfl | rfl <;> exact ⟨_, rfl, rfl⟩

/-- Witness for C7 at a concrete input. -/
theorem claim_C7_witness :
    sampleRobot.dynamic = some sampleModel ∧
    (∃ r' fresh' m' fd f fs, initializeRobot sampleRobot 2 = .ok (r', fresh') ∧
      r'.dynamic = some m' ∧
      r'.featureComDes = some fd ∧
      fd.errorIN = Input.const m'.comValue ∧
      r'.featureCom = some f ∧
      f.errorIN = Input.plugged "com" ∧
      r'.features = some fs ∧
      ∀ op ∈ OperationalPoints, ∃ fp, fs.lookup op = some fp ∧
        fp.reference = m'.sigValue op) :=
  ⟨rfl, claim_C7 sampleRobot 2 sampleModel rfl⟩

/-- C6: the source of `loadModelFromJrlDynamics` ends in a bare `return`
after `model.parse()`, so for every descriptor the call yields `None` instead
of the Model Handle promised by its docstring and by the loader contract
(the sibling kxml loader ends in `return model`). -/
theorem claim_C6_code_returns_none {JrlModel : Type}
    (mkDynamicHrp2 : String → JrlModel)
    (setFiles : JrlModel → String → String → String → String → JrlModel)
    (jrlParse : JrlModel → JrlModel)
    (name modelDir modelName specificitiesPath jointRankPath : String) :
    loadModelFromJrlDynamics mkDynamicHrp2 setFiles jrlParse
      name modelDir modelName specificitiesPath jointRankPath = none := rfl

/-- A concrete pre-existing device, used to instantiate C8. -/
def sampleDevice : Device :=
  { name := "preexisting.device", state := [5] }

/-- A concrete robot that already holds a device before initialization. -/
def sampleRobotWithDevice : Robot :=
  { sampleRobot with device := some sampleDevice }

/-- C8: `initializeRobot` constructs a default simulated device named after
the robot only when none exists; a pre-existing device object stays in place
(the `device` field keeps referencing the same entity — only its full-state
signal is set to the half-sitting vector, as step 2 of initialization
mandates). -/
theorem claim_C8 (r : Robot) (fresh : Nat) (m : DynModel)
    (hdyn : r.dynamic = some m) :
    (∀ d, r.device = some d →
      ∃ r' fresh', initializeRobot r fresh = .ok (r', fresh') ∧
        r'.device = some (d.set r.halfSitting) ∧
        ∀ d', r'.device = some d' → d'.name = d.name) ∧
    (r.device = none →
      ∃ r' fresh', initializeRobot r fresh = .ok (r', fresh') ∧
        r'.device = some ((RobotSimu (r.name ++ ".device")).set r.halfSitting)) := by
  constructor
  · intro d hd
    unfold initializeRobot
    rw [hdyn, hd]
    refine ⟨_, _, rfl, rfl, ?_⟩
    intro d' hd'
    cases hd'
    rfl
  · intro hd
    unfold initializeRobot
    rw [hdyn, hd]
    exact ⟨_, _, rfl, rfl⟩

/-- Witness for C8 at a concrete input: a robot with a pre-existing device. -/
theorem claim_C8_witness :
    sampleRobotWithDevice.dynamic = some sampleModel ∧
    sampleRobotWithDevice.device = some sampleDevice ∧
    (∃ r' fresh', initializeRobot sampleRobotWithDevice 2 = .ok (r', fresh') ∧
      r'.device = some (sampleDevice.set sampleRobotWithDevice.halfSitting) ∧
      ∀ d', r'.device = some d' → d'.name = sampleDevice.name) :=
  ⟨rfl, rfl,
    (claim_C8 sampleRobotWithDevice 2 sampleModel rfl).1 sampleDevice rfl⟩

/-- C9: `initializeOpPoints` ignores its prefix parameter entirely — any two
prefix strings on the same model produce the same result, and the recorded
`createOpPoint` invocations are exactly `(op, op)` for the four fixed
operational-point names. -/
theorem claim_C9 (m : DynModel) (p1 p2 : String) :
    initializeOpPoints m p1 = initializeOpPoints m p2 ∧
    (initializeOpPoints m p1).opPointCalls =
      m.opPointCalls ++ OperationalPoints.map (fun op => (op, op)) := by
  constructor
  · rfl
  · simp [initializeOpPoints, OperationalPoints, DynModel.createOpPoint]

/-- A second concrete robot, used to instantiate C10 next to `sampleRobot`. -/
def sampleRobot2 : Robot :=
  { name := "s"
    dynamic := some sampleModel
    dimension := 3
    halfSitting := [0, 0, 0] }

/-- C10: before `initializeRobot` runs, the `features` and `tasks` mappings
resolve to the class-level dictionaries shared by every instance; a
successful `initializeRobot` rebinds them to fresh per-instance dictionaries
whose key sets both equal exactly the fixed operational-point set, so two
initialized robots never share a `features` or `tasks` mapping (and neither
coincides with the class-level one). -/
theorem claim_C10 (r1 r2 : Robot) (fresh : Nat) (m1 m2 : DynModel)
    (h1f : r1.featuresId = none) (h1t : r1.tasksId = none)
    (h2f : r2.featuresId = none) (h2t : r2.tasksId = none)
    (hd1 : r1.dynamic = some m1) (hd2 : r2.dynamic = some m2)
    (hfresh : 2 ≤ fresh) :
    (r1.featuresDictId = r2.featuresDictId ∧
     r1.featuresDictId = classFeaturesId ∧
     r1.tasksDictId = r2.tasksDictId ∧
     r1.tasksDictId = classTasksId) ∧
    ∀ r1' f1 r2' f2,
      initializeRobot r1 fresh = .ok (r1', f1) →
      initializeRobot r2 f1 = .ok (r2', f2) →
      r1'.featuresDictId ≠ r2'.featuresDictId ∧
      r1'.tasksDictId ≠ r2'.tasksDictId ∧
      r1'.featuresDictId ≠ classFeaturesId ∧
      r1'.tasksDictId ≠ classTasksId ∧
      r2'.featuresDictId ≠ classFeaturesId ∧
      r2'.tasksDictId ≠ classTasksId ∧
      (∃ fs, r1'.features = some fs ∧ fs.map Prod.fst = OperationalPoints) ∧
      (∃ ts, r1'.tasks = some ts ∧ ts.map Prod.fst = OperationalPoints) ∧
      (∃ fs, r2'.features = some fs ∧ fs.map Prod.fst = OperationalPoints) ∧
      (∃ ts, r2'.tasks = some ts ∧ ts.map Prod.fst = OperationalPoints) := by
  refine ⟨⟨?_, ?_, ?_, ?_⟩, ?_⟩
  · rw [Robot.featuresDictId, Robot.featuresDictId, h1f, h2f]
  · rw [Robot.featuresDictId, h1f]; rfl
  · rw [Robot.tasksDictId, Robot.tasksDictId, h1t, h2t]
  · rw [Robot.tasksDictId, h1t]; rfl
  · intro r1' f1 r2' f2 hi1 hi2
    unfold initializeRobot at hi1 hi2
    rw [hd1] at hi1
    rw [hd2] at hi2
    injection hi1 with hi1
    injection hi2 with hi2
    injection hi1 with hr1 hf1
    injection hi2 with hr2 hf2
    subst hr1 hf1 hr2 hf2
    refine ⟨?_, ?_, ?_, ?_, ?_, ?_, ⟨_, rfl, rfl⟩, ⟨_, rfl, rfl⟩,
      ⟨_, rfl, rfl⟩, ⟨_, rfl, rfl⟩⟩ <;>
      simp [Robot.featuresDictId, Robot.tasksDictId, classFeaturesId,
        classTasksId] <;> omega

/-- Witness for C10 at concrete inputs: two distinct robots initialized in
sequence from allocation counter 2. -/
theorem claim_C10_witness :
    sampleRobot.featuresId = none ∧ sampleRobot.tasksId = none ∧
    sampleRobot2.featuresId = none ∧ sampleRobot2.tasksId = none ∧
    sampleRobot.dynamic = some sampleModel ∧
    sampleRobot2.dynamic = some sampleModel ∧ 2 ≤ 2 ∧
    ((sampleRobot.featuresDictId = sampleRobot2.featuresDictId ∧
      sampleRobot.featuresDictId = classFeaturesId ∧
      sampleRobot.tasksDictId = sampleRobot2.tasksDictId ∧
      sampleRobot.tasksDictId = classTasksId) ∧
     ∀ r1' f1 r2' f2,
      initializeRobot sampleRobot 2 = .ok (r1', f1) →
      initializeRobot sampleRobot2 f1 = .ok (r2', f2) →
      r1'.featuresDictId ≠ r2'.featuresDictId ∧
      r1'.tasksDictId ≠ r2'.tasksDictId ∧
      r1'.featuresDictId ≠ classFeaturesId ∧
      r1'.tasksDictId ≠ classTasksId ∧
      r2'.featuresDictId ≠ classFeaturesId ∧
      r2'.tasksDictId ≠ classTasksId ∧
      (∃ fs, r1'.features = some fs ∧ fs.map Prod.fst = OperationalPoints) ∧
      (∃ ts, r1'.tasks = some ts ∧ ts.map Prod.fst = OperationalPoints) ∧
      (∃ fs, r2'.features = some fs ∧ fs.map Prod.fst = OperationalPoints) ∧
      (∃ ts, r2'.tasks = some ts ∧ ts.map Prod.fst = OperationalPoints)) :=
  ⟨rfl, rfl, rfl, rfl, rfl, rfl, Nat.le_refl 2,
    claim_C10 sampleRobot sampleRobot2 2 sampleModel sampleModel
      rfl rfl rfl rfl rfl rfl (Nat.le_refl 2)⟩

end SotDynamics
